import Mathlib

/-!
Shallow embedding of `demo_mocks/demo_mocks.go`: a `Service` struct holding two
function-valued behavior slots (`myFuncVar1 : func(string) string`,
`myFuncVar2 : func()`), a constructor `NewService` binding them to the real
implementations `myMethod1Impl` / `myMethod2Impl`, the driver
`NormalProgramFlow`, and the test substitutes from `demo_mocks_test.go`
(counting closures, a testify-mock adapter `myMethod1Instrumented`, and the
pass-through tracker `myMethod1InstrumentedWithOrigCallTracking`).

Side effects (the `fmt.Println` output trace, the test counter, the
`capturedReturns` slice, and the testify mock's expectation/call records) are
made explicit in a state record `MockState` that every callable threads
through.  Go panics (calling a nil function field, testify's panic on an
unexpected call) are modelled with `Except GoError`.

Slot occupants are defunctionalized: the inductive `Slot1` lists the callables
the program ever stores in `myFuncVar1` — the real implementation, an
arbitrary plain substitute closure (constructor `sub`, carrying any state
transformer, which covers the counting closures of `TestBasic`), and the two
testify-instrumented methods.  A Go `nil` function field is `Option.none` on
the `Service` record, exactly the zero value produced by `&Service{}`.
-/

/-- Run-time failure of a Go call: dereferencing a nil function field, or the
testify mock panicking because a call matched no registered expectation. -/
inductive GoError where
  | nilDeref : GoError
  | unexpectedCall : String → String → GoError
deriving DecidableEq, Repr

/-- One registered testify expectation, as set up by
`On(method, arg).Return(ret).Once()`: `remaining` is the number of matching
calls it may still absorb (`Once()` registers it with `remaining = 1`). -/
structure ExpectedCall where
  method : String
  arg : String
  ret : String
  remaining : Nat
deriving DecidableEq, Repr

/-- The mutable state threaded through every call: the `fmt.Println` trace,
the fields of `ServiceMock` (`count`, `capturedReturns`, and the testify
`mock.Mock` embedded as its registered expectations and recorded calls). -/
structure MockState where
  output : List String
  count : Nat
  capturedReturns : List String
  expectedCalls : List ExpectedCall
  calls : List (String × String)
deriving DecidableEq, Repr

/-- The state at the start of a test: empty trace, zero counter, no captures,
no expectations, no recorded calls. -/
def initState : MockState :=
  { output := [], count := 0, capturedReturns := [], expectedCalls := [], calls := [] }

/-- testify lookup: find the first registered expectation matching the method
name and argument that may still absorb a call, decrement its remaining count,
and report its configured return value. -/
def findExpectedCall : List ExpectedCall → String → String → Option (List ExpectedCall × String)
  | [], _, _ => none
  | e :: rest, m, a =>
      if e.method = m ∧ e.arg = a ∧ 0 < e.remaining then
        some ({ e with remaining := e.remaining - 1 } :: rest, e.ret)
      else
        match findExpectedCall rest m a with
        | none => none
        | some (es, r) => some (e :: es, r)

/-- testify `Mock.Called` as used by the instrumented methods: match the call
against the registered expectations; on success record the call and return the
configured value, otherwise panic (`unexpectedCall`). -/
def mockCalled (st : MockState) (method a : String) : Except GoError (MockState × String) :=
  match findExpectedCall st.expectedCalls method a with
  | none => Except.error (GoError.unexpectedCall method a)
  | some (es, r) =>
      Except.ok ({ st with expectedCalls := es, calls := st.calls ++ [(method, a)] }, r)

/-- testify `AssertExpectations`: succeeds exactly when every registered
expectation has been satisfied the prescribed number of times. -/
def AssertExpectations (es : List ExpectedCall) : Bool :=
  es.all fun e => e.remaining == 0

/-- `myMethod1Impl`: builds the banner string, prints it, and returns it. -/
def myMethod1Impl (st : MockState) (input : String) : MockState × String :=
  let output := "This is my Method 1 being called! Input: " ++ input
  ({ st with output := st.output ++ [output] }, output)

/-- The callables the program ever installs into the `myFuncVar1` slot. -/
inductive Slot1 where
  | impl1 : Slot1
  | sub : (MockState → String → MockState × String) → Slot1
  | instrumented : Slot1
  | instrumentedTracking : Slot1

/-- Invoke a `myFuncVar1` occupant.  `impl1` is `myMethod1Impl`; `sub g` is a
plain substitute closure; `instrumented` is `myMethod1Instrumented` (forward
to `Mock.Called`, return the framework value); `instrumentedTracking` is
`myMethod1InstrumentedWithOrigCallTracking` (forward to `Mock.Called`, then
also run the real implementation, append its return to `capturedReturns`, and
still return the framework value). -/
def callSlot1 : Slot1 → MockState → String → Except GoError (MockState × String)
  | Slot1.impl1, st, input => Except.ok (myMethod1Impl st input)
  | Slot1.sub g, st, input => Except.ok (g st input)
  | Slot1.instrumented, st, input => mockCalled st "myMethod1Instrumented" input
  | Slot1.instrumentedTracking, st, input =>
      match mockCalled st "myMethod1InstrumentedWithOrigCallTracking" input with
      | Except.error e => Except.error e
      | Except.ok (st1, r) =>
          let p := myMethod1Impl st1 input
          Except.ok ({ p.1 with capturedReturns := p.1.capturedReturns ++ [p.2] }, r)

/-- The callables the program ever installs into the `myFuncVar2` slot: only
the real implementation `myMethod2Impl`. -/
inductive Slot2 where
  | impl2 : Slot2
deriving DecidableEq, Repr

/-- The `Service` struct: two function-typed fields.  `none` is Go's nil
function value, the zero value a field has before the constructor assigns it. -/
structure Service where
  myFuncVar1 : Option Slot1
  myFuncVar2 : Option Slot2

/-- `myService.myFuncVar1(input)`: dispatch to the current occupant of the
slot; calling a nil function field panics. -/
def invokeVar1 (svc : Service) (st : MockState) (input : String) :
    Except GoError (MockState × String) :=
  match svc.myFuncVar1 with
  | none => Except.error GoError.nilDeref
  | some s => callSlot1 s st input

/-- `myMethod2Impl`: calls through the service's `myFuncVar1` slot — not the
canonical implementation — with the fixed argument, discarding the result. -/
def myMethod2Impl (svc : Service) (st : MockState) : Except GoError MockState :=
  (invokeVar1 svc st "Method 1 called from Method 2").map Prod.fst

/-- Invoke a `myFuncVar2` occupant on the current service. -/
def callSlot2 : Slot2 → Service → MockState → Except GoError MockState
  | Slot2.impl2, svc, st => myMethod2Impl svc st

/-- `myService.myFuncVar2()`: dispatch to the current occupant of the slot;
calling a nil function field panics. -/
def invokeVar2 (svc : Service) (st : MockState) : Except GoError MockState :=
  match svc.myFuncVar2 with
  | none => Except.error GoError.nilDeref
  | some s => callSlot2 s svc st

/-- `&Service{}`: the zero value, both function fields nil. -/
def zeroService : Service :=
  { myFuncVar1 := none, myFuncVar2 := none }

/-- `NewService`: allocate the zero value, then bind each slot to its real
implementation. -/
def NewService : Service :=
  { zeroService with myFuncVar1 := some Slot1.impl1, myFuncVar2 := some Slot2.impl2 }

/-- A test overriding the `myFuncVar1` slot: `svc.myFuncVar1 = s`. -/
def setFuncVar1 (svc : Service) (s : Slot1) : Service :=
  { svc with myFuncVar1 := some s }

/-- `NormalProgramFlow`: print the header, call `myFuncVar1("first call")`,
then call `myFuncVar2()`. -/
def NormalProgramFlow (svc : Service) (st : MockState) : Except GoError MockState :=
  let st0 := { st with output := st.output ++ ["Func calls on myService struct:"] }
  match invokeVar1 svc st0 "first call" with
  | Except.error e => Except.error e
  | Except.ok (st1, _) => invokeVar2 svc st1

/-- Run `NormalProgramFlow` on the same service `n` times in sequence. -/
def runFlows : Nat → Service → MockState → Except GoError MockState
  | 0, _, st => Except.ok st
  | n + 1, svc, st =>
      match NormalProgramFlow svc st with
      | Except.error e => Except.error e
      | Except.ok st1 => runFlows n svc st1

/-- Call `myFuncVar2()` on the same service `n` times in sequence. -/
def iterVar2 : Nat → Service → MockState → Except GoError MockState
  | 0, _, st => Except.ok st
  | n + 1, svc, st =>
      match invokeVar2 svc st with
      | Except.error e => Except.error e
      | Except.ok st1 => iterVar2 n svc st1

/-- The first substitute of `TestBasic`: increment the shared counter and
return the input unchanged. -/
def countingPassthru : Slot1 :=
  Slot1.sub fun st input => ({ st with count := st.count + 1 }, input)

/-- The second substitute of `TestBasic`: increment the shared counter, then
call the old method `myMethod1Impl` and return its result. -/
def countingCallOld : Slot1 :=
  Slot1.sub fun st input =>
    myMethod1Impl { st with count := st.count + 1 } input

/-- The expectations registered in `TestWTestifyMockBasic`. -/
def basicExpectedCalls : List ExpectedCall :=
  [ { method := "myMethod1Instrumented", arg := "first call",
      ret := "my custom return", remaining := 1 },
    { method := "myMethod1Instrumented", arg := "Method 1 called from Method 2",
      ret := "my custom return 2", remaining := 1 } ]

/-- The expectations registered in `TestWTestifyMockPassthrough`. -/
def passthruExpectedCalls : List ExpectedCall :=
  [ { method := "myMethod1InstrumentedWithOrigCallTracking", arg := "first call",
      ret := "my custom return", remaining := 1 },
    { method := "myMethod1InstrumentedWithOrigCallTracking",
      arg := "Method 1 called from Method 2",
      ret := "my custom return 2", remaining := 1 } ]

/-- Helper: one `NormalProgramFlow` on a service whose `myFuncVar1` slot holds
the counting pass-through substitute prints the header and increments the
counter twice (one direct slot call, one through `myMethod2Impl`). -/
theorem flow_counting (st : MockState) :
    NormalProgramFlow (setFuncVar1 NewService countingPassthru) st =
      Except.ok { st with
        output := st.output ++ ["Func calls on myService struct:"],
        count := st.count + 1 + 1 } := rfl

/-- Helper: one `myFuncVar2()` call on a service whose `myFuncVar1` slot holds
the counting pass-through substitute increments the counter exactly once. -/
theorem var2_counting (st : MockState) :
    invokeVar2 (setFuncVar1 NewService countingPassthru) st =
      Except.ok { st with count := st.count + 1 } := rfl

/-- C1: a Service returned by NewService with no override installed has every
behavior slot bound to its real implementation, so invoking either public
operation produces exactly the output of the corresponding real
implementation: `myFuncVar1` behaves as `myMethod1Impl` on every state and
input, and `myFuncVar2` behaves as `myMethod2Impl`, which on the fresh service
is the real Method 1 on the fixed argument. -/
theorem C1_default_binding :
    NewService.myFuncVar1 = some Slot1.impl1 ∧
    NewService.myFuncVar2 = some Slot2.impl2 ∧
    (∀ st input, invokeVar1 NewService st input = Except.ok (myMethod1Impl st input)) ∧
    (∀ st, invokeVar2 NewService st = myMethod2Impl NewService st) ∧
    (∀ st, invokeVar2 NewService st =
      Except.ok (myMethod1Impl st "Method 1 called from Method 2").1) :=
  ⟨rfl, rfl, fun _ _ => rfl, fun _ => rfl, fun _ => rfl⟩

/-- C2: for any substitute closure `g` installed into the `myFuncVar1` slot of
a constructor-built Service, running Behavior Two (`myFuncVar2`, still bound
to the unchanged `myMethod2Impl`) invokes exactly `g` — not `myMethod1Impl` —
with the argument "Method 1 called from Method 2": the resulting state is
precisely `g`'s state on that argument. -/
theorem C2_substitute_exercised_by_method2 (g : MockState → String → MockState × String)
    (st : MockState) :
    (setFuncVar1 NewService (Slot1.sub g)).myFuncVar2 = NewService.myFuncVar2 ∧
    (setFuncVar1 NewService (Slot1.sub g)).myFuncVar2 = some Slot2.impl2 ∧
    invokeVar2 (setFuncVar1 NewService (Slot1.sub g)) st =
      Except.ok (g st "Method 1 called from Method 2").1 :=
  ⟨rfl, rfl, rfl⟩

/-- C4: overriding the `myFuncVar1` slot does not alter anything else: the
`myFuncVar2` slot still holds the same callable it held before, and the real
implementation `myMethod1Impl` itself is unchanged — dispatching the `impl1`
occupant still computes exactly `myMethod1Impl`. -/
theorem C4_override_isolation (svc : Service) (s : Slot1) (st : MockState) (input : String) :
    (setFuncVar1 svc s).myFuncVar2 = svc.myFuncVar2 ∧
    callSlot1 Slot1.impl1 st input = Except.ok (myMethod1Impl st input) :=
  ⟨rfl, rfl⟩

/-- C5: each override fully replaces the prior occupant of the slot: after two
successive assignments to `myFuncVar1`, the slot holds exactly the second
substitute, and every invocation dispatches to the second substitute alone —
the result does not depend on the first substitute, which is never invoked
again. -/
theorem C5_override_fully_replaces (svc : Service) (s1 s2 : Slot1) (st : MockState)
    (input : String) :
    (setFuncVar1 (setFuncVar1 svc s1) s2).myFuncVar1 = some s2 ∧
    invokeVar1 (setFuncVar1 (setFuncVar1 svc s1) s2) st input = callSlot1 s2 st input :=
  ⟨rfl, rfl⟩

/-- C6: the record-then-delegate substitute of `TestBasic` (increment the
counter, then call `myMethod1Impl` and return its result) returns, on every
state and input, a string identical to what calling `myMethod1Impl` directly
with the same input returns. -/
theorem C6_passthru_fidelity (st : MockState) (input : String) :
    (callSlot1 countingCallOld st input).map Prod.snd =
      Except.ok (myMethod1Impl st input).2 :=
  rfl

/-- C10: a Service value created without calling NewService — the zero value
`&Service\x7b\x7d` — has both behavior slots nil, and invoking either public
operation on it dereferences a nil function (a run-time panic); the non-empty
slot invariant is established by the constructor, which binds both slots. -/
theorem C10_zero_value_slots_nil :
    zeroService.myFuncVar1 = none ∧ zeroService.myFuncVar2 = none ∧
    (∀ st input, invokeVar1 zeroService st input = Except.error GoError.nilDeref) ∧
    (∀ st, invokeVar2 zeroService st = Except.error GoError.nilDeref) ∧
    NewService.myFuncVar1 = some Slot1.impl1 ∧
    NewService.myFuncVar2 = some Slot2.impl2 :=
  ⟨rfl, rfl, fun _ _ => rfl, fun _ => rfl, rfl, rfl⟩

/-- C3 counterexample: with the counting pass-through substitute installed into
the `myFuncVar1` slot, running two end-to-end `NormalProgramFlow` runs from a
fresh counter yields a counter of exactly 4, not 2 — exactly what `TestBasic`
asserts after its second flow. -/
theorem C3_counterexample :
    (runFlows 2 (setFuncVar1 NewService countingPassthru) initState).map
        (fun st => st.count) = Except.ok 4 ∧
    (runFlows 2 (setFuncVar1 NewService countingPassthru) initState).map
        (fun st => st.count) ≠ Except.ok 2 :=
  ⟨rfl, fun h => by
    have h4 : (Except.ok 4 : Except GoError Nat) = Except.ok 2 := h
    exact absurd (Except.ok.inj h4) (by omega)⟩

/-- C3 (amended): with a counting substitute installed into the `myFuncVar1`
slot, the counter obeys the k-times-m law for both operations of the code:
each `NormalProgramFlow` run invokes the slot exactly twice (k = 2: once
directly with "first call", once through Behavior Two), so m runs add 2·m to
the counter — in particular two runs yield 4 — while Behavior Two alone
invokes the slot exactly once (k = 1), so m calls to `myFuncVar2` add m. -/
theorem C3_call_count_law (m : Nat) (st : MockState) :
    (∃ st1, runFlows m (setFuncVar1 NewService countingPassthru) st = Except.ok st1 ∧
        st1.count = st.count + 2 * m) ∧
    (∃ st2, iterVar2 m (setFuncVar1 NewService countingPassthru) st = Except.ok st2 ∧
        st2.count = st.count + m) := by
  constructor
  · induction m generalizing st with
    | zero => exact ⟨st, rfl, by omega⟩
    | succ n ih =>
        rcases ih { st with
            output := st.output ++ ["Func calls on myService struct:"],
            count := st.count + 1 + 1 } with ⟨st1, h1, h2⟩
        refine ⟨st1, ?_, ?_⟩
        · simpa only [runFlows, flow_counting] using h1
        · have h2x : st1.count = st.count + 1 + 1 + 2 * n := h2
          omega
  · induction m generalizing st with
    | zero => exact ⟨st, rfl, by omega⟩
    | succ n ih =>
        rcases ih { st with count := st.count + 1 } with ⟨st2, h1, h2⟩
        refine ⟨st2, ?_, ?_⟩
        · simpa only [iterVar2, var2_counting] using h1
        · have h2x : st2.count = st.count + 1 + n := h2
          omega

/-- C7: on a constructor-built Service whose `myFuncVar1` slot holds the
testify-instrumented substitute, with the two one-time expectations of
`TestWTestifyMockBasic` registered, one `NormalProgramFlow` run invokes the
slot exactly twice — first with "first call", then with "Method 1 called from
Method 2", in that order — and `AssertExpectations` succeeds. -/
theorem C7_expectation_matching :
    (NormalProgramFlow (setFuncVar1 NewService Slot1.instrumented)
          { initState with expectedCalls := basicExpectedCalls }).map
        (fun st => (st.calls, AssertExpectations st.expectedCalls)) =
      Except.ok ([("myMethod1Instrumented", "first call"),
        ("myMethod1Instrumented", "Method 1 called from Method 2")], true) :=
  rfl

/-- Helper: a successful `Mock.Called` leaves `capturedReturns` untouched (it
only consumes an expectation and records the call). -/
theorem mockCalled_ok_capturedReturns (st : MockState) (m a : String) (st1 : MockState)
    (r : String) (h : mockCalled st m a = Except.ok (st1, r)) :
    st1.capturedReturns = st.capturedReturns := by
  unfold mockCalled at h
  cases hf : findExpectedCall st.expectedCalls m a with
  | none => rw [hf] at h; exact Except.noConfusion h
  | some p =>
      cases p with
      | mk es r2 =>
          rw [hf] at h
          injection h with h1
          injection h1 with h2 h3
          rw [← h2]

/-- Helper: `Mock.Called` can only fail by panicking on an unexpected call,
never with a nil dereference. -/
theorem mockCalled_error_eq (st : MockState) (m a : String) (e : GoError)
    (h : mockCalled st m a = Except.error e) : e = GoError.unexpectedCall m a := by
  unfold mockCalled at h
  cases hf : findExpectedCall st.expectedCalls m a with
  | none =>
      rw [hf] at h
      injection h with h1
      exact h1.symm
  | some p =>
      cases p with
      | mk es r2 => rw [hf] at h; exact Except.noConfusion h

/-- Helper: when `Mock.Called` panics, the tracking substitute propagates the
panic without running the real implementation. -/
theorem callSlot1_tracking_error (st : MockState) (input : String) (e : GoError)
    (hm : mockCalled st "myMethod1InstrumentedWithOrigCallTracking" input = Except.error e) :
    callSlot1 Slot1.instrumentedTracking st input = Except.error e := by
  show (match mockCalled st "myMethod1InstrumentedWithOrigCallTracking" input with
    | Except.error e => (Except.error e : Except GoError (MockState × String))
    | Except.ok (st1, r) =>
        let p := myMethod1Impl st1 input
        Except.ok ({ p.1 with capturedReturns := p.1.capturedReturns ++ [p.2] }, r)) =
    Except.error e
  rw [hm]

/-- Helper: when `Mock.Called` succeeds, the tracking substitute runs the real
implementation, appends its return to `capturedReturns`, and returns the
framework value. -/
theorem callSlot1_tracking_ok (st : MockState) (input : String) (stm : MockState) (rm : String)
    (hm : mockCalled st "myMethod1InstrumentedWithOrigCallTracking" input =
      Except.ok (stm, rm)) :
    callSlot1 Slot1.instrumentedTracking st input =
      Except.ok ({ (myMethod1Impl stm input).1 with
        capturedReturns := (myMethod1Impl stm input).1.capturedReturns ++
          [(myMethod1Impl stm input).2] }, rm) := by
  show (match mockCalled st "myMethod1InstrumentedWithOrigCallTracking" input with
    | Except.error e => (Except.error e : Except GoError (MockState × String))
    | Except.ok (st1, r) =>
        let p := myMethod1Impl st1 input
        Except.ok ({ p.1 with capturedReturns := p.1.capturedReturns ++ [p.2] }, r)) = _
  rw [hm]

/-- Helper: dispatching any occupant of the `myFuncVar1` slot never fails with
a nil dereference — the occupant is a real callable. -/
theorem callSlot1_ne_nilDeref (s : Slot1) (st : MockState) (input : String) :
    callSlot1 s st input ≠ Except.error GoError.nilDeref := by
  cases s with
  | impl1 => exact fun h => Except.noConfusion h
  | sub g => exact fun h => Except.noConfusion h
  | instrumented =>
      intro h
      have he := mockCalled_error_eq st "myMethod1Instrumented" input GoError.nilDeref h
      exact GoError.noConfusion he
  | instrumentedTracking =>
      intro h
      cases hm : mockCalled st "myMethod1InstrumentedWithOrigCallTracking" input with
      | error e =>
          rw [callSlot1_tracking_error st input e hm] at h
          injection h with h1
          have he := mockCalled_error_eq st "myMethod1InstrumentedWithOrigCallTracking" input e hm
          rw [h1] at he
          exact GoError.noConfusion he
      | ok q =>
          cases q with
          | mk stm rm =>
              rw [callSlot1_tracking_ok st input stm rm hm] at h
              exact Except.noConfusion h

/-- C8: the tracking substitute `myMethod1InstrumentedWithOrigCallTracking`
appends exactly one entry to `capturedReturns` per successful slot invocation
(so the list's length equals the number of invocations), and one
`NormalProgramFlow` run under the expectations of
`TestWTestifyMockPassthrough` leaves `capturedReturns` with length exactly 2. -/
theorem C8_captured_returns (st : MockState) (input : String) (st1 : MockState) (r : String)
    (h : callSlot1 Slot1.instrumentedTracking st input = Except.ok (st1, r)) :
    st1.capturedReturns.length = st.capturedReturns.length + 1 ∧
    (NormalProgramFlow (setFuncVar1 NewService Slot1.instrumentedTracking)
          { initState with expectedCalls := passthruExpectedCalls }).map
        (fun s => s.capturedReturns.length) = Except.ok 2 := by
  refine ⟨?_, rfl⟩
  cases hm : mockCalled st "myMethod1InstrumentedWithOrigCallTracking" input with
  | error e =>
      rw [callSlot1_tracking_error st input e hm] at h
      exact Except.noConfusion h
  | ok q =>
      cases q with
      | mk stm rm =>
          rw [callSlot1_tracking_ok st input stm rm hm] at h
          injection h with h1
          injection h1 with h2 h3
          have hcr := mockCalled_ok_capturedReturns st
            "myMethod1InstrumentedWithOrigCallTracking" input stm rm hm
          rw [← h2]
          show (stm.capturedReturns ++ [(myMethod1Impl stm input).2]).length =
            st.capturedReturns.length + 1
          rw [List.length_append, hcr]
          rfl

/-- C8 witness: the state after one tracking-substitute invocation on the
initial state of `TestWTestifyMockPassthrough` with input "first call". -/
def c8PostState : MockState :=
  { output := ["This is my Method 1 being called! Input: first call"],
    count := 0,
    capturedReturns := ["This is my Method 1 being called! Input: first call"],
    expectedCalls :=
      [ { method := "myMethod1InstrumentedWithOrigCallTracking", arg := "first call",
          ret := "my custom return", remaining := 0 },
        { method := "myMethod1InstrumentedWithOrigCallTracking",
          arg := "Method 1 called from Method 2",
          ret := "my custom return 2", remaining := 1 } ],
    calls := [("myMethod1InstrumentedWithOrigCallTracking", "first call")] }

/-- C8 witness: instantiating the captured-returns theorem at the concrete
first call of `TestWTestifyMockPassthrough`. -/
theorem C8_captured_returns_witness :
    c8PostState.capturedReturns.length =
      ({ initState with expectedCalls := passthruExpectedCalls } :
        MockState).capturedReturns.length + 1 ∧
    (NormalProgramFlow (setFuncVar1 NewService Slot1.instrumentedTracking)
          { initState with expectedCalls := passthruExpectedCalls }).map
        (fun s => s.capturedReturns.length) = Except.ok 2 :=
  C8_captured_returns { initState with expectedCalls := passthruExpectedCalls }
    "first call" c8PostState "my custom return" rfl

/-- C9 counterexample: the claim quantifies over every Service, but on the
zero-value Service (created without the constructor) invoking either public
operation raises an error from the object itself — a nil function
dereference — so slot invocation is not error-free for every Service value. -/
theorem C9_counterexample :
    invokeVar1 zeroService initState "first call" = Except.error GoError.nilDeref ∧
    invokeVar2 zeroService initState = Except.error GoError.nilDeref :=
  ⟨rfl, rfl⟩

/-- C9 (amended): for every Service whose behavior slots are populated — as
the constructor establishes and every override preserves — the object itself
never raises an error: reassigning a slot is an unconditional total update
that leaves the other slot untouched and always succeeds, and invoking either
public operation never raises a nil-dereference error from the object itself
(any failure can only be the mock collaborator panicking on an unexpected
call). -/
theorem C9_no_object_errors :
    (∀ svc s, (setFuncVar1 svc s).myFuncVar1 = some s ∧
        (setFuncVar1 svc s).myFuncVar2 = svc.myFuncVar2) ∧
    (∀ svc st input, svc.myFuncVar1 ≠ none →
        invokeVar1 svc st input ≠ Except.error GoError.nilDeref) ∧
    (∀ svc st, svc.myFuncVar1 ≠ none → svc.myFuncVar2 ≠ none →
        invokeVar2 svc st ≠ Except.error GoError.nilDeref) := by
  refine ⟨fun svc s => ⟨rfl, rfl⟩, ?_, ?_⟩
  · intro svc st input h1
    unfold invokeVar1
    cases hs : svc.myFuncVar1 with
    | none => exact absurd hs h1
    | some s => exact callSlot1_ne_nilDeref s st input
  · intro svc st h1 h2
    unfold invokeVar2
    cases hs2 : svc.myFuncVar2 with
    | none => exact absurd hs2 h2
    | some s2 =>
        cases s2
        show myMethod2Impl svc st ≠ Except.error GoError.nilDeref
        unfold myMethod2Impl invokeVar1
        cases hs1 : svc.myFuncVar1 with
        | none => exact absurd hs1 h1
        | some s1 =>
            show Except.map Prod.fst (callSlot1 s1 st "Method 1 called from Method 2") ≠
              Except.error GoError.nilDeref
            cases hc : callSlot1 s1 st "Method 1 called from Method 2" with
            | error e =>
                intro hcontra
                have he : (Except.error e : Except GoError MockState) =
                    Except.error GoError.nilDeref := hcontra
                have h1x := Except.error.inj he
                exact callSlot1_ne_nilDeref s1 st "Method 1 called from Method 2" (h1x ▸ hc)
            | ok q =>
                exact fun hcontra => Except.noConfusion hcontra

/-- C9 witness: on the constructor-built Service, whose slots are populated,
neither public operation can raise the object's own nil-dereference error. -/
theorem C9_no_object_errors_witness :
    invokeVar1 NewService initState "first call" ≠ Except.error GoError.nilDeref ∧
    invokeVar2 NewService initState ≠ Except.error GoError.nilDeref :=
  ⟨C9_no_object_errors.2.1 NewService initState "first call"
      (fun h => Option.noConfusion h),
    C9_no_object_errors.2.2 NewService initState
      (fun h => Option.noConfusion h) (fun h => Option.noConfusion h)⟩
